import Mathlib

/-!
Verification of the PortfolioAPI backend (Express + Supabase).

Shallow embedding of the repository's JavaScript sources:
* `src/utils/responseFormatter.js` — response envelope builders,
* `src/middleware/upload.js` — multer upload middleware and Supabase storage calls,
* `src/controllers/projectsController.js` — project CRUD (and the journey
  controller concatenated in the same source file),
* `src/controllers/certificationsController.js` — certification CRUD,
* `src/routes/projects.js`, `src/routes/journey.js` — route wiring,
* the SQL schema (`journey_items_view` etc.).

JavaScript values are embedded as follows: machine numbers that are always
small non-negative integers become `Nat`; calendar dates become `Int`
ordinals ordered chronologically (the `YYYY-MM-DD` reformatting done by
`new Date(x).toISOString().split('T')[0]` is the identity on these
ordinals); `undefined`/absent fields become `Option`; JS truthiness of a
string is "non-empty"; external calls (Supabase storage and Postgres) are
modelled by an explicit environment that says which calls fail, and every
external call is recorded in an event trace.
-/

/-- A JSON value, the shape of what Express `res.json` serialises. -/
inductive Json where
  | null
  | bool (b : Bool)
  | num (n : Int)
  | str (s : String)
  | arr (elems : List Json)
  | obj (fields : List (String × Json))

/-- Look a key up in an object's field list (first occurrence). -/
def lookupField : List (String × Json) → String → Option Json
  | [], _ => none
  | (k, v) :: rest, key => if k = key then some v else lookupField rest key

/-- Field access on a JSON object; `none` on non-objects and missing keys. -/
def Json.get? : Json → String → Option Json
  | .obj fields, key => lookupField fields key
  | _, _ => none

/-- The list of top-level keys of a JSON object. -/
def Json.keys : Json → List String
  | .obj fields => fields.map (fun f => f.1)
  | _ => []

/-- Pagination metadata record (the object built by the controllers and by
`calculatePagination` in `src/utils/responseFormatter.js`). -/
structure Pagination where
  page : Nat
  limit : Nat
  total : Nat
  pages : Nat
  hasNext : Bool
  hasPrev : Bool
deriving Repr, DecidableEq

/-- `Math.ceil(total / limit)` on natural numbers (for `limit ≥ 1`). -/
def ceilNat (total limit : Nat) : Nat := (total + limit - 1) / limit

/-- `calculatePagination` from `src/utils/responseFormatter.js` (lines
87–100): `pages = Math.ceil(total/limit)`, `hasNext = page < totalPages`,
`hasPrev = page > 1`; `parseInt` is the identity on already-numeric input. -/
def calculatePagination (page limit total : Nat) : Pagination :=
  { page := page
    limit := limit
    total := total
    pages := ceilNat total limit
    hasNext := decide (page < ceilNat total limit)
    hasPrev := decide (page > 1) }

/-- The pagination object computed inline by every list controller
(e.g. `getAllProjects`, `src/controllers/projectsController.js` lines
63–73): `total = count || 0`, `pages = Math.ceil(total/limit)`,
`hasNext = page < totalPages`, `hasPrev = page > 1`. -/
def controllerPagination (page limit total : Nat) : Pagination :=
  { page := page
    limit := limit
    total := total
    pages := ceilNat total limit
    hasNext := decide (page < ceilNat total limit)
    hasPrev := decide (page > 1) }

/-- JS `x || d` for a number field: `0` (and `undefined`, which we encode
as `0`) is falsy and replaced by the default. -/
def orDefaultNat (x d : Nat) : Nat := if x = 0 then d else x

/-- The coercion `sendPaginatedResponse` applies to each pagination field
(`src/utils/responseFormatter.js` lines 64–71): `page || 1`, `limit || 10`,
`total || 0`, `pages || 1`, `hasNext || false`, `hasPrev || false`. -/
def sprPagination (p : Pagination) : Pagination :=
  { page := orDefaultNat p.page 1
    limit := orDefaultNat p.limit 10
    total := orDefaultNat p.total 0
    pages := orDefaultNat p.pages 1
    hasNext := p.hasNext || false
    hasPrev := p.hasPrev || false }

/-- The JSON form of a full pagination object. -/
def paginationJson (p : Pagination) : Json :=
  .obj [("page", .num p.page), ("limit", .num p.limit),
        ("total", .num p.total), ("pages", .num p.pages),
        ("hasNext", .bool p.hasNext), ("hasPrev", .bool p.hasPrev)]

/-- `sendSuccess` (`src/utils/responseFormatter.js` lines 10–25): builds
`{success, message, timestamp}`, adds `data` when non-null, and returns
`{statusCode, json: response}`.  The clock is passed in as `now`. -/
def sendSuccess (data : Option Json) (message : String) (statusCode : Nat)
    (now : String) : Json :=
  .obj [("statusCode", .num statusCode),
        ("json", .obj ([("success", .bool true), ("message", .str message),
                        ("timestamp", .str now)] ++
          (match data with
           | some d => [("data", d)]
           | none => [])))]

/-- `sendError` (`src/utils/responseFormatter.js` lines 34–49): builds
`{success: false, message, timestamp}`, adds `errors` when truthy, and
returns `{statusCode, json: response}`. -/
def sendError (message : String) (statusCode : Nat) (errors : Option Json)
    (now : String) : Json :=
  .obj [("statusCode", .num statusCode),
        ("json", .obj ([("success", .bool false), ("message", .str message),
                        ("timestamp", .str now)] ++
          (match errors with
           | some e => [("errors", e)]
           | none => [])))]

/-- `sendPaginatedResponse` (`src/utils/responseFormatter.js` lines 58–78):
`{success, message, timestamp, data, pagination}` with each pagination
field coerced through `|| default`, wrapped as `{statusCode: 200, json}`. -/
def sendPaginatedResponse (data : List Json) (p : Pagination)
    (message : String) (now : String) : Json :=
  .obj [("statusCode", .num 200),
        ("json", .obj [("success", .bool true), ("message", .str message),
                       ("timestamp", .str now), ("data", .arr data),
                       ("pagination", paginationJson (sprPagination p))])]

/-- `sendSearchResponse` (`src/utils/responseFormatter.js` lines 162–185):
its `pagination` object carries only `page`, `limit`, `total`, `pages`
(coerced through `|| default`) — no `hasNext`/`hasPrev` keys. -/
def sendSearchResponse (results : List Json) (searchQuery : String)
    (p : Pagination) (now : String) : Json :=
  .obj [("statusCode", .num 200),
        ("json", .obj [("success", .bool true),
                       ("message", .str "Search completed successfully"),
                       ("timestamp", .str now), ("data", .arr results),
                       ("search", .obj [("query", .str searchQuery),
                                        ("filters", .obj []),
                                        ("totalResults", .num results.length)]),
                       ("pagination", .obj [("page", .num (orDefaultNat p.page 1)),
                                            ("limit", .num (orDefaultNat p.limit 10)),
                                            ("total", .num (orDefaultNat p.total results.length)),
                                            ("pages", .num (orDefaultNat p.pages 1))])])]

/-- The argument `getAllProjects` passes to `res.json` on its success path
(`src/controllers/projectsController.js` lines 63–77): the whole value
returned by `sendPaginatedResponse`, unchanged. -/
def getAllProjectsSuccessBody (rows : List Json) (page limit total : Nat)
    (now : String) : Json :=
  sendPaginatedResponse rows (controllerPagination page limit total)
    "Projects retrieved successfully" now

/-- JS whitespace stripped by `String.prototype.trim` (the characters that
occur in this API's inputs). -/
def isJsWhitespace (c : Char) : Bool :=
  c = ' ' || c = '\t' || c = '\n' || c = '\r'

/-- JS `s.trim()`. -/
def jsTrim (s : String) : String :=
  ⟨((s.data.dropWhile isJsWhitespace).reverse.dropWhile isJsWhitespace).reverse⟩

/-- JS `s || null` on a possibly-absent string: empty strings collapse to
null, as in `demo_link || null` (`src/controllers/projectsController.js`
line 162). -/
def jsStrOrNull : Option String → Option String
  | some s => if s = "" then none else some s
  | none => none

/-- JS `str.split('/')` on the underlying character list; like JS `split`
it always returns at least one (possibly empty) piece. -/
def splitOnSlash : List Char → List (List Char)
  | [] => [[]]
  | c :: rest =>
    let r := splitOnSlash rest
    if c = '/' then [] :: r
    else
      match r with
      | [] => [[c]]
      | h :: t => (c :: h) :: t

/-- `extractFilenameFromUrl` (`src/controllers/projectsController.js` lines
441–448): `url.split('/')` and take the last part. -/
def extractFilenameFromUrl (url : String) : String :=
  ⟨(splitOnSlash url.data).getLastD []⟩

/-- One external call made by a controller, in program order. -/
inductive Event where
  | dbQuery (table : String)
  | dbInsert (table : String)
  | dbUpdate (table : String)
  | dbDelete (table : String)
  | storageUpload (fileName : String)
  | storageDelete (fileName : String)
deriving Repr, DecidableEq

/-- The external world of one request: the unique name the upload step
generates (`uuidv4()` plus the original extension), the blob store's
public-URL prefix, the id the database assigns on insert, and which
external calls fail.  `storageDeleteFails` exists to express that the
controllers never inspect the result of a best-effort delete. -/
structure Env where
  freshName : String
  urlPrefix : String
  newId : Nat
  uploadFails : Bool
  insertFails : Bool
  updateFails : Bool
  storageDeleteFails : Bool
deriving Repr, DecidableEq

/-- `getPublicUrl(fileName).publicUrl`: the blob store derives the public
URL by appending the generated name to the bucket prefix. -/
def publicUrlFor (env : Env) : String := env.urlPrefix ++ "/" ++ env.freshName

/-- PostgREST `.single()`: the row when exactly one matched; any other
cardinality is an error, and the controllers destructure `data` (then
falsy) without checking the error. -/
def singleResult {α : Type} : List α → Option α
  | [a] => some a
  | _ => none

/-- The compensating/cleanup delete pattern used throughout
`projectsController.js`: `const fileName = extractFilenameFromUrl(url);
if (fileName) await deleteFromSupabaseStorage(fileName)`, with any delete
failure caught and only logged. -/
def cleanupEvents (url : String) : List Event :=
  let fileName := extractFilenameFromUrl url
  if fileName = "" then [] else [.storageDelete fileName]

/-- A multipart file as multer presents it. -/
structure RawFile where
  fieldname : String
  mimetype : String
  size : Nat
  originalname : String
deriving Repr, DecidableEq

/-- The default MIME allow-list of `fileFilter`
(`src/middleware/upload.js` lines 21–26). -/
def defaultAllowedImageTypes : List String :=
  ["image/jpeg", "image/png", "image/gif", "image/webp"]

/-- `parseInt(process.env.MAX_FILE_SIZE) || 10 * 1024 * 1024`. -/
def maxFileSizeDefault : Nat := 10 * 1024 * 1024

/-- `fileFilter` (`src/middleware/upload.js` lines 20–33):
`allowedTypes.includes(file.mimetype)`. -/
def fileFilterAccepts (allowedTypes : List String) (f : RawFile) : Bool :=
  allowedTypes.contains f.mimetype

/-- The ways multer rejects a request before any controller runs. -/
inductive UploadReject where
  | invalidType
  | fileTooLarge
  | tooManyFiles
deriving Repr, DecidableEq

/-- The `uploadProjectImage` middleware (`src/middleware/upload.js` lines
46–80): multer with `files: 1`, the image `fileFilter` and the size limit;
an accepted file is kept as `req.file` only when its field name is `image`
or `uploadedFile` (the latter renamed to `image`), otherwise `req.file`
stays null. -/
def runUploadMiddleware (maxSize : Nat) (allowedTypes : List String)
    (files : List RawFile) : Except UploadReject (Option RawFile) :=
  match files with
  | [] => .ok none
  | [f] =>
    if ¬ fileFilterAccepts allowedTypes f then .error .invalidType
    else if f.size > maxSize then .error .fileTooLarge
    else if f.fieldname = "image" ∨ f.fieldname = "uploadedFile" then
      .ok (some { f with fieldname := "image" })
    else .ok none
  | _ => .error .tooManyFiles

/-- `handleUploadError` (`src/middleware/upload.js` lines 138–162) answers
every multer rejection with HTTP 400. -/
def handleUploadErrorStatus : UploadReject → Nat
  | _ => 400

/-- A row of the `projects` table. -/
structure Project where
  id : Nat
  name : String
  details : String
  skills : List String
  demo_link : Option String
  github_link : Option String
  image_url : Option String
deriving Repr, DecidableEq

/-- The body fields `createProject` destructures
(`src/controllers/projectsController.js` line 123); `skills` defaults to
the empty array when absent. -/
structure ProjectCreateBody where
  name : String
  details : String
  skills : Option (List String)
  demo_link : Option String
  github_link : Option String
deriving Repr, DecidableEq

/-- The body fields `updateProject` destructures (line 208); every field
may be absent (partial update). -/
structure ProjectUpdateBody where
  id : Nat
  name : Option String
  details : Option String
  skills : Option (List String)
  demo_link : Option String
  github_link : Option String
deriving Repr, DecidableEq

/-- The terminal responses of `createProject`. -/
inductive ProjectCreateOutcome where
  | conflict
  | uploadFailed
  | persistFailed
  | created (p : Project)
deriving Repr, DecidableEq

/-- The terminal responses of `updateProject`. -/
inductive ProjectUpdateOutcome where
  | notFound
  | conflict
  | uploadFailed
  | persistFailed
  | updated (p : Project)
deriving Repr, DecidableEq

/-- The `res.status` code of each `createProject` outcome. -/
def projectCreateStatus : ProjectCreateOutcome → Nat
  | .conflict => 400
  | .uploadFailed => 400
  | .persistFailed => 500
  | .created _ => 201

/-- The `res.status` code of each `updateProject` outcome. -/
def projectUpdateStatus : ProjectUpdateOutcome → Nat
  | .notFound => 404
  | .conflict => 400
  | .uploadFailed => 400
  | .persistFailed => 500
  | .updated _ => 200

/-- `.from('projects').select(..).eq('name', name).single()`. -/
def findProjectByName (store : List Project) (name : String) : Option Project :=
  singleResult (store.filter (fun p => p.name = name))

/-- `.from('projects').select('*').eq('id', id).single()`. -/
def findProjectById (store : List Project) (id : Nat) : Option Project :=
  singleResult (store.filter (fun p => p.id = id))

/-- `createProject` (`src/controllers/projectsController.js` lines
121–202): duplicate-name check, optional upload, insert, and — when the
insert fails after an upload — best-effort deletion of the just-uploaded
image before answering with the insert failure. -/
def createProjectM (env : Env) (store : List Project)
    (body : ProjectCreateBody) (file : Option RawFile) :
    ProjectCreateOutcome × List Event :=
  let ev0 : List Event := [.dbQuery "projects"]
  match findProjectByName store body.name with
  | some _ => (.conflict, ev0)
  | none =>
    let uploadStep : Option (Option String × List Event) :=
      match file with
      | none => some (none, [])
      | some _ =>
        if env.uploadFails then none
        else some (some (publicUrlFor env), [.storageUpload env.freshName])
    match uploadStep with
    | none => (.uploadFailed, ev0)
    | some (imageUrl, evUp) =>
      let projectData : Project :=
        { id := env.newId
          name := body.name
          details := body.details
          skills := body.skills.getD []
          demo_link := jsStrOrNull body.demo_link
          github_link := jsStrOrNull body.github_link
          image_url := imageUrl }
      if env.insertFails then
        (.persistFailed, ev0 ++ evUp ++ [.dbInsert "projects"] ++
          (match imageUrl with
           | some url => cleanupEvents url
           | none => []))
      else
        (.created projectData, ev0 ++ evUp ++ [.dbInsert "projects"])

/-- The record produced by `updateProject`'s `updateData` (lines 270–278):
provided fields are trimmed and applied, absent fields keep the stored
value; `image_url` is the controller's `image_url` variable (the existing
URL, or the freshly uploaded one). -/
def applyProjectUpdate (ex : Project) (body : ProjectUpdateBody)
    (imageUrl : Option String) : Project :=
  { id := ex.id
    name := match body.name with | some n => jsTrim n | none => ex.name
    details := match body.details with | some d => jsTrim d | none => ex.details
    skills := match body.skills with | some s => s | none => ex.skills
    demo_link :=
      match body.demo_link with
      | some d => jsStrOrNull (some (jsTrim d))
      | none => ex.demo_link
    github_link :=
      match body.github_link with
      | some g => jsStrOrNull (some (jsTrim g))
      | none => ex.github_link
    image_url := imageUrl }

/-- `if (name && name !== existingProject.name)` (line 225). -/
def projectNameCheckFires (ex : Project) (body : ProjectUpdateBody) : Bool :=
  match body.name with
  | some n => n ≠ "" && n ≠ ex.name
  | none => false

/-- `updateProject` (`src/controllers/projectsController.js` lines
205–316): existence check, conditional name-conflict check, optional
upload — deleting the OLD image right after a successful upload, before
the database update — then the update, with best-effort deletion of the
NEW image when the update fails. -/
def updateProjectM (env : Env) (store : List Project)
    (body : ProjectUpdateBody) (file : Option RawFile) :
    ProjectUpdateOutcome × List Event :=
  let ev0 : List Event := [.dbQuery "projects"]
  match findProjectById store body.id with
  | none => (.notFound, ev0)
  | some ex =>
    let fires := projectNameCheckFires ex body
    let evName : List Event := if fires then [.dbQuery "projects"] else []
    let nameConflict : Bool :=
      if fires then
        match body.name with
        | some n =>
          (singleResult (store.filter
            (fun p => p.name = n ∧ p.id ≠ body.id))).isSome
        | none => false
      else false
    if nameConflict then (.conflict, ev0 ++ evName)
    else
      match file with
      | some _ =>
        if env.uploadFails then (.uploadFailed, ev0 ++ evName)
        else
          let newUrl := publicUrlFor env
          let evOld : List Event :=
            match ex.image_url with
            | some oldUrl => cleanupEvents oldUrl
            | none => []
          let evs := ev0 ++ evName ++ [.storageUpload env.freshName] ++ evOld
          if env.updateFails then
            (.persistFailed, evs ++ [.dbUpdate "projects"] ++ cleanupEvents newUrl)
          else
            (.updated (applyProjectUpdate ex body (some newUrl)),
             evs ++ [.dbUpdate "projects"])
      | none =>
        let evs := ev0 ++ evName
        if env.updateFails then (.persistFailed, evs ++ [.dbUpdate "projects"])
        else
          (.updated (applyProjectUpdate ex body ex.image_url),
           evs ++ [.dbUpdate "projects"])

/-- What `POST /api/projects` answers: either the upload middleware's 400
or a controller outcome. -/
inductive ProjectsPostResult where
  | uploadRejected (reject : UploadReject)
  | controller (outcome : ProjectCreateOutcome)
deriving Repr, DecidableEq

/-- Whether the middleware rejected the request. -/
def ProjectsPostResult.isUploadRejected : ProjectsPostResult → Bool
  | .uploadRejected _ => true
  | .controller _ => false

/-- The `POST /api/projects` pipeline as wired in `src/routes/projects.js`
lines 153–157: the upload middleware, `handleUploadError`, then
`createProject` — and nothing else (in particular no `validateRequest`
step and no validation rules). -/
def projectsPostPipeline (env : Env) (store : List Project)
    (maxSize : Nat) (allowedTypes : List String)
    (body : ProjectCreateBody) (files : List RawFile) :
    ProjectsPostResult × List Event :=
  match runUploadMiddleware maxSize allowedTypes files with
  | .error e => (.uploadRejected e, [])
  | .ok f =>
    let r := createProjectM env store body f
    (.controller r.1, r.2)

/-- A row of the `journey_items` table. -/
structure JourneyItem where
  id : Nat
  title : String
  company_name : String
  start_date : Int
  end_date : Option Int
  details : String
  journey_type : String
deriving Repr, DecidableEq

/-- A row of the `journey_items_view` (schema SQL lines 185–200). -/
structure JourneyItemViewRow where
  id : Nat
  title : String
  company_name : String
  start_date : Int
  end_date : Option Int
  details : String
  journey_type : String
  is_current : Bool
deriving Repr, DecidableEq

/-- `journey_items_view`: `is_current = CASE WHEN end_date IS NULL THEN
true ELSE false END`. -/
def journeyItemsViewRow (i : JourneyItem) : JourneyItemViewRow :=
  { id := i.id
    title := i.title
    company_name := i.company_name
    start_date := i.start_date
    end_date := i.end_date
    details := i.details
    journey_type := i.journey_type
    is_current := i.end_date.isNone }

/-- The body fields `createJourneyItem` destructures (journey controller,
lines 576–583 of the controllers source). -/
structure JourneyCreateBody where
  title : String
  company_name : String
  start_date : Int
  end_date : Option Int
  details : String
  journey_type : String
deriving Repr, DecidableEq

/-- The body fields `updateJourneyItem` destructures; `end_date` must keep
JS's three-way distinction `undefined` (absent) / falsy (clears the date)
/ a date, because the controller tests `end_date !== undefined`. -/
structure JourneyUpdateBody where
  id : Nat
  title : Option String
  company_name : Option String
  start_date : Option Int
  end_date : Option (Option Int)
  details : Option String
  journey_type : Option String
deriving Repr, DecidableEq

/-- The terminal responses of `createJourneyItem`. -/
inductive JourneyCreateOutcome where
  | conflict
  | invalidDateRange
  | persistFailed
  | created (i : JourneyItem)
deriving Repr, DecidableEq

/-- The terminal responses of `updateJourneyItem`. -/
inductive JourneyUpdateOutcome where
  | notFound
  | conflict
  | invalidDateRange
  | persistFailed
  | updated (i : JourneyItem)
deriving Repr, DecidableEq

/-- The `res.status` code of each `createJourneyItem` outcome. -/
def journeyCreateStatus : JourneyCreateOutcome → Nat
  | .conflict => 400
  | .invalidDateRange => 400
  | .persistFailed => 500
  | .created _ => 201

/-- The `res.status` code of each `updateJourneyItem` outcome. -/
def journeyUpdateStatus : JourneyUpdateOutcome → Nat
  | .notFound => 404
  | .conflict => 400
  | .invalidDateRange => 400
  | .persistFailed => 500
  | .updated _ => 200

/-- `.eq('title', title).eq('company_name', company_name).single()`. -/
def findJourneyByKey (store : List JourneyItem) (title company : String) :
    Option JourneyItem :=
  singleResult (store.filter
    (fun i => i.title = title ∧ i.company_name = company))

/-- `.eq('id', id).single()` on `journey_items`. -/
def findJourneyById (store : List JourneyItem) (id : Nat) :
    Option JourneyItem :=
  singleResult (store.filter (fun i => i.id = id))

/-- `createJourneyItem` (journey controller, lines 574–639): duplicate
title+company check, then the `end_date <= start_date` rejection, then the
insert of the trimmed record. -/
def createJourneyItemM (env : Env) (store : List JourneyItem)
    (body : JourneyCreateBody) : JourneyCreateOutcome × List Event :=
  let ev0 : List Event := [.dbQuery "journey_items"]
  match findJourneyByKey store body.title body.company_name with
  | some _ => (.conflict, ev0)
  | none =>
    let dateBad : Bool :=
      match body.end_date with
      | some e => decide (e ≤ body.start_date)
      | none => false
    if dateBad then (.invalidDateRange, ev0)
    else
      let item : JourneyItem :=
        { id := env.newId
          title := jsTrim body.title
          company_name := jsTrim body.company_name
          start_date := body.start_date
          end_date := body.end_date
          details := jsTrim body.details
          journey_type := body.journey_type }
      if env.insertFails then (.persistFailed, ev0 ++ [.dbInsert "journey_items"])
      else (.created item, ev0 ++ [.dbInsert "journey_items"])

/-- `if (title && company_name && (title !== existingJourneyItem.title ||
company_name !== existingJourneyItem.company_name))` (line 668): the
duplicate check runs only when BOTH key components are supplied truthy. -/
def journeyDupCheckFires (ex : JourneyItem) (body : JourneyUpdateBody) : Bool :=
  match body.title, body.company_name with
  | some t, some c => t ≠ "" && c ≠ "" && (t ≠ ex.title || c ≠ ex.company_name)
  | _, _ => false

/-- `updateJourneyItem`'s `updateData` applied to the stored row (lines
694–702): provided fields are trimmed/applied, absent fields keep the
stored value; a provided falsy `end_date` clears the date. -/
def applyJourneyUpdate (ex : JourneyItem) (body : JourneyUpdateBody) :
    JourneyItem :=
  { id := ex.id
    title := match body.title with | some t => jsTrim t | none => ex.title
    company_name :=
      match body.company_name with
      | some c => jsTrim c
      | none => ex.company_name
    start_date := match body.start_date with | some s => s | none => ex.start_date
    end_date := match body.end_date with | some e => e | none => ex.end_date
    details := match body.details with | some d => jsTrim d | none => ex.details
    journey_type :=
      match body.journey_type with
      | some j => j
      | none => ex.journey_type }

/-- `updateJourneyItem` (journey controller, lines 642–728): existence
check, conditional duplicate check, the resolved-dates check
(`finalStartDate = start_date || existing`, `finalEndDate = end_date !==
undefined ? end_date : existing`), then the update. -/
def updateJourneyItemM (env : Env) (store : List JourneyItem)
    (body : JourneyUpdateBody) : JourneyUpdateOutcome × List Event :=
  let ev0 : List Event := [.dbQuery "journey_items"]
  match findJourneyById store body.id with
  | none => (.notFound, ev0)
  | some ex =>
    let fires := journeyDupCheckFires ex body
    let evDup : List Event := if fires then [.dbQuery "journey_items"] else []
    let dup : Bool :=
      if fires then
        match body.title, body.company_name with
        | some t, some c =>
          (singleResult (store.filter
            (fun i => i.title = t ∧ i.company_name = c ∧ i.id ≠ body.id))).isSome
        | _, _ => false
      else false
    if dup then (.conflict, ev0 ++ evDup)
    else
      let finalStart : Int :=
        match body.start_date with
        | some s => s
        | none => ex.start_date
      let finalEnd : Option Int :=
        match body.end_date with
        | some e => e
        | none => ex.end_date
      let dateBad : Bool :=
        match finalEnd with
        | some e => decide (e ≤ finalStart)
        | none => false
      if dateBad then (.invalidDateRange, ev0 ++ evDup)
      else if env.updateFails then
        (.persistFailed, ev0 ++ evDup ++ [.dbUpdate "journey_items"])
      else
        (.updated (applyJourneyUpdate ex body),
         ev0 ++ evDup ++ [.dbUpdate "journey_items"])

/-- The `POST /api/journey` pipeline as wired in `src/routes/journey.js`
lines 180–182: only `createJourneyItem` — no validation middleware. -/
def journeyPostPipeline (env : Env) (store : List JourneyItem)
    (body : JourneyCreateBody) : JourneyCreateOutcome × List Event :=
  createJourneyItemM env store body

/-- A row of the `certifications` table. -/
structure Certification where
  id : Nat
  title : String
  issuer : String
  issued_date : Int
  certification_id : Option String
  details : Option String
  link_url : Option String
deriving Repr, DecidableEq

/-- The body fields `updateCertification` destructures
(`src/controllers/certificationsController.js` lines 170–177). -/
structure CertificationUpdateBody where
  id : Nat
  title : Option String
  issuer : Option String
  issued_date : Option Int
  certification_id : Option String
  details : Option String
  link_url : Option String
deriving Repr, DecidableEq

/-- The terminal responses of `updateCertification`. -/
inductive CertificationUpdateOutcome where
  | notFound
  | conflict
  | persistFailed
  | updated (c : Certification)
deriving Repr, DecidableEq

/-- The `res.status` code of each `updateCertification` outcome. -/
def certificationUpdateStatus : CertificationUpdateOutcome → Nat
  | .notFound => 404
  | .conflict => 400
  | .persistFailed => 500
  | .updated _ => 200

/-- `.eq('id', id).single()` on `certifications`. -/
def findCertificationById (store : List Certification) (id : Nat) :
    Option Certification :=
  singleResult (store.filter (fun c => c.id = id))

/-- `if (title && issuer && (title !== existingCertification.title ||
issuer !== existingCertification.issuer))`
(`src/controllers/certificationsController.js` line 193). -/
def certDupCheckFires (ex : Certification) (body : CertificationUpdateBody) :
    Bool :=
  match body.title, body.issuer with
  | some t, some u => t ≠ "" && u ≠ "" && (t ≠ ex.title || u ≠ ex.issuer)
  | _, _ => false

/-- `updateCertification`'s `updateData` applied to the stored row (lines
209–217). -/
def applyCertificationUpdate (ex : Certification)
    (body : CertificationUpdateBody) : Certification :=
  { id := ex.id
    title := match body.title with | some t => jsTrim t | none => ex.title
    issuer := match body.issuer with | some u => jsTrim u | none => ex.issuer
    issued_date :=
      match body.issued_date with
      | some d => d
      | none => ex.issued_date
    certification_id :=
      match body.certification_id with
      | some s => jsStrOrNull (some (jsTrim s))
      | none => ex.certification_id
    details :=
      match body.details with
      | some s => jsStrOrNull (some (jsTrim s))
      | none => ex.details
    link_url :=
      match body.link_url with
      | some s => jsStrOrNull (some (jsTrim s))
      | none => ex.link_url }

/-- `updateCertification` (`src/controllers/certificationsController.js`
lines 167–243): existence check, conditional duplicate title+issuer check,
then the update. -/
def updateCertificationM (env : Env) (store : List Certification)
    (body : CertificationUpdateBody) :
    CertificationUpdateOutcome × List Event :=
  let ev0 : List Event := [.dbQuery "certifications"]
  match findCertificationById store body.id with
  | none => (.notFound, ev0)
  | some ex =>
    let fires := certDupCheckFires ex body
    let evDup : List Event := if fires then [.dbQuery "certifications"] else []
    let dup : Bool :=
      if fires then
        match body.title, body.issuer with
        | some t, some u =>
          (singleResult (store.filter
            (fun c => c.title = t ∧ c.issuer = u ∧ c.id ≠ body.id))).isSome
        | _, _ => false
      else false
    if dup then (.conflict, ev0 ++ evDup)
    else if env.updateFails then
      (.persistFailed, ev0 ++ evDup ++ [.dbUpdate "certifications"])
    else
      (.updated (applyCertificationUpdate ex body),
       ev0 ++ evDup ++ [.dbUpdate "certifications"])

/-- If at least one item matched, the computed page count is positive. -/
theorem ceilNat_pos {total limit : Nat} (ht : 1 ≤ total) (hl : 1 ≤ limit) :
    0 < ceilNat total limit := by
  unfold ceilNat
  exact (Nat.le_div_iff_mul_le hl).mpr (by omega)

/-- Zero matching items always give a zero page count. -/
theorem ceilNat_zero (limit : Nat) : ceilNat 0 limit = 0 := by
  unfold ceilNat
  cases limit with
  | zero => rfl
  | succ n => exact Nat.div_eq_of_lt (by omega)

/-- C1: Every controller passes the whole value returned by the formatter —
`{statusCode, json: envelope}` — to `res.json`, so the body's top-level
keys are `statusCode` and `json`; `success`, `message` and `timestamp` are
nested one level down, not at the top level as the spec (and the README)
document. -/
theorem c1_envelope_not_top_level :
    ∀ (rows : List Json) (page limit total : Nat) (now msg : String)
      (code : Nat) (errs : Option Json),
      Json.keys (getAllProjectsSuccessBody rows page limit total now) =
        ["statusCode", "json"] ∧
      Json.get? (getAllProjectsSuccessBody rows page limit total now) "success" = none ∧
      Json.get? (getAllProjectsSuccessBody rows page limit total now) "timestamp" = none ∧
      Json.keys (sendError msg code errs now) = ["statusCode", "json"] ∧
      Json.get? (sendError msg code errs now) "success" = none ∧
      ((sendError msg code errs now).get? "json").bind (fun j => j.get? "success") =
        some (.bool false) := by
  intro rows page limit total now msg code errs
  cases errs <;>
    simp [getAllProjectsSuccessBody, sendPaginatedResponse, sendError,
          Json.keys, Json.get?, lookupField]

/-- C6 counterexample: a list response over zero matching items (total = 0,
limit = 10, page = 1) reports `pages = 1`, not `ceil(0/10) = 0`, at the
response boundary. -/
theorem c6_counterexample :
    (sprPagination (controllerPagination 1 10 0)).pages ≠ ceilNat 0 10 ∧
    (sprPagination (controllerPagination 1 10 0)).pages = 1 ∧
    ceilNat 0 10 = 0 := by decide

/-- C6 (amended): for every paginated list response with `page ≥ 1`,
`limit ≥ 1` and `total ≥ 1`, the response-boundary pagination satisfies
`pages = ceil(total/limit)`, `hasNext ↔ page < pages`,
`hasPrev ↔ page > 1`; in particular `total = 25`, `limit = 10` gives
`pages = 3` with `hasNext` and not `hasPrev` on page 1, and `hasPrev` and
not `hasNext` on page 3.  (At `total = 0` the response reports `pages = 1`,
and search responses carry no `hasNext`/`hasPrev` keys at all.) -/
theorem c6_pagination_relations :
    (∀ page limit total : Nat, 1 ≤ page → 1 ≤ limit → 1 ≤ total →
      (sprPagination (controllerPagination page limit total)).pages = ceilNat total limit ∧
      ((sprPagination (controllerPagination page limit total)).hasNext = true ↔
        page < ceilNat total limit) ∧
      ((sprPagination (controllerPagination page limit total)).hasPrev = true ↔
        1 < page)) ∧
    sprPagination (controllerPagination 1 10 25) = ⟨1, 10, 25, 3, true, false⟩ ∧
    sprPagination (controllerPagination 3 10 25) = ⟨3, 10, 25, 3, false, true⟩ ∧
    (∀ (rows : List Json) (page limit total : Nat) (now : String),
      ((getAllProjectsSuccessBody rows page limit total now).get? "json").bind
          (fun j => j.get? "pagination") =
        some (paginationJson (sprPagination (controllerPagination page limit total)))) := by
  refine ⟨?_, by decide, by decide, ?_⟩
  · intro page limit total hp hl ht
    have hpos : 0 < ceilNat total limit := ceilNat_pos ht hl
    refine ⟨?_, ?_, ?_⟩ <;>
      simp [sprPagination, controllerPagination, orDefaultNat,
            Nat.pos_iff_ne_zero.mp hpos]
  · intro rows page limit total now
    simp [getAllProjectsSuccessBody, sendPaginatedResponse, Json.get?, lookupField]

/-- C6 witness: the amended relations instantiated at page 1, limit 10,
total 25. -/
theorem c6_pagination_relations_witness :
    (sprPagination (controllerPagination 1 10 25)).pages = ceilNat 25 10 ∧
    ((sprPagination (controllerPagination 1 10 25)).hasNext = true ↔
      1 < ceilNat 25 10) ∧
    ((sprPagination (controllerPagination 1 10 25)).hasPrev = true ↔ 1 < 1) :=
  c6_pagination_relations.1 1 10 25 (by decide) (by decide) (by decide)

/-- C10: a list matching zero rows reports `pagination.pages = 1` at the
response boundary even though `calculatePagination` computes 0, and the
`|| default` coercion in `sendPaginatedResponse` silently replaces every
falsy pagination field by its default. -/
theorem c10_falsy_pagination_coercion :
    (calculatePagination 1 10 0).pages = 0 ∧
    (sprPagination (calculatePagination 1 10 0)).pages = 1 ∧
    (∀ page limit : Nat,
      (sprPagination (controllerPagination page limit 0)).pages = 1 ∧
      ceilNat 0 limit = 0) ∧
    (∀ t : Nat, sprPagination ⟨0, 0, t, 0, false, false⟩ = ⟨1, 10, t, 1, false, false⟩) ∧
    (∀ (rows : List Json) (page limit : Nat) (now : String),
      (((getAllProjectsSuccessBody rows page limit 0 now).get? "json").bind
          (fun j => j.get? "pagination")).bind (fun j => j.get? "pages") =
        some (.num 1)) := by
  refine ⟨by decide, by decide, ?_, ?_, ?_⟩
  · intro page limit
    refine ⟨?_, ceilNat_zero limit⟩
    simp [sprPagination, controllerPagination, orDefaultNat, ceilNat_zero]
  · intro t
    cases t with
    | zero => decide
    | succ n => simp [sprPagination, orDefaultNat]
  · intro rows page limit now
    simp [getAllProjectsSuccessBody, sendPaginatedResponse, Json.get?, lookupField,
          paginationJson, sprPagination, controllerPagination, orDefaultNat, ceilNat_zero]

/-- JS `split` never returns an empty array. -/
theorem splitOnSlash_ne_nil (l : List Char) : splitOnSlash l ≠ [] := by
  induction l with
  | nil => simp [splitOnSlash]
  | cons c rest ih =>
    simp only [splitOnSlash]
    split
    · simp
    · split
      · simp
      · simp

/-- `getLastD` of a non-empty list ignores the default. -/
theorem getLastD_of_ne_nil {α : Type} {l : List α} (h : l ≠ []) (d e : α) :
    l.getLastD d = l.getLastD e := by
  cases l with
  | nil => exact absurd rfl h
  | cons a t => rw [List.getLastD_cons, List.getLastD_cons]

/-- Splitting a slash-free piece gives the piece back. -/
theorem splitOnSlash_no_slash {l : List Char} (h : '/' ∉ l) :
    splitOnSlash l = [l] := by
  induction l with
  | nil => rfl
  | cons c rest ih =>
    have hc : ¬(c = '/') := fun hc => h (by simp [hc])
    have hr : '/' ∉ rest := fun hm => h (List.mem_cons_of_mem _ hm)
    simp only [splitOnSlash, ih hr, if_neg hc]

/-- A piece containing a slash splits into at least two parts. -/
theorem splitOnSlash_length_ge_two {l : List Char} (h : '/' ∈ l) :
    2 ≤ (splitOnSlash l).length := by
  induction l with
  | nil => simp at h
  | cons c rest ih =>
    simp only [splitOnSlash]
    by_cases hc : c = '/'
    · rw [if_pos hc]
      have h1 : splitOnSlash rest ≠ [] := splitOnSlash_ne_nil rest
      have h2 : 0 < (splitOnSlash rest).length := List.length_pos.mpr h1
      simp only [List.length_cons]
      omega
    · rw [if_neg hc]
      have hr : '/' ∈ rest := by
        rcases List.mem_cons.mp h with h1 | h2
        · exact absurd h1.symm hc
        · exact h2
      have h2 := ih hr
      cases hsp : splitOnSlash rest with
      | nil => exact absurd hsp (splitOnSlash_ne_nil rest)
      | cons hh tt =>
        rw [hsp] at h2
        simp only [List.length_cons] at h2 ⊢
        omega

/-- The last piece of `a ++ "/" ++ b` is the last piece of `b`. -/
theorem getLastD_splitOnSlash_append (a b : List Char) :
    (splitOnSlash (a ++ '/' :: b)).getLastD [] = (splitOnSlash b).getLastD [] := by
  induction a with
  | nil =>
    simp only [List.nil_append, splitOnSlash]
    rw [if_pos trivial, List.getLastD_cons]
  | cons c a' ih =>
    simp only [List.cons_append, splitOnSlash]
    by_cases hc : c = '/'
    · rw [if_pos hc, List.getLastD_cons]
      exact ih
    · rw [if_neg hc]
      have hne := splitOnSlash_ne_nil (a' ++ '/' :: b)
      have hlen : 2 ≤ (splitOnSlash (a' ++ '/' :: b)).length :=
        splitOnSlash_length_ge_two (by simp)
      cases hsp : splitOnSlash (a' ++ '/' :: b) with
      | nil => exact absurd hsp hne
      | cons hh tt =>
        rw [hsp] at hlen
        have htt : tt ≠ [] := by
          intro h
          subst h
          simp at hlen
        rw [hsp] at ih
        rw [List.getLastD_cons] at ih
        simp only [List.getLastD_cons]
        rw [getLastD_of_ne_nil htt (c :: hh) hh]
        exact ih

/-- Extracting the filename back out of a derived public URL recovers the
generated name, provided the name itself contains no slash. -/
theorem extractFilenameFromUrl_append (base n : String) (h : '/' ∉ n.data) :
    extractFilenameFromUrl (base ++ "/" ++ n) = n := by
  unfold extractFilenameFromUrl
  have hdata : (base ++ "/" ++ n).data = base.data ++ '/' :: n.data := by
    simp [String.data_append]
  rw [hdata, getLastD_splitOnSlash_append, splitOnSlash_no_slash h]
  rfl

/-- The compensating delete of a freshly derived public URL removes
exactly the generated file name. -/
theorem cleanupEvents_publicUrl (env : Env) (h : '/' ∉ env.freshName.data)
    (hne : env.freshName ≠ "") :
    cleanupEvents (publicUrlFor env) = [.storageDelete env.freshName] := by
  unfold cleanupEvents publicUrlFor
  rw [extractFilenameFromUrl_append _ _ h]
  simp [hne]

/-- A name that no stored project bears makes the duplicate lookup empty. -/
theorem findProjectByName_eq_none {store : List Project} {n : String}
    (h : ∀ p ∈ store, p.name ≠ n) : findProjectByName store n = none := by
  unfold findProjectByName
  have hf : store.filter (fun p => p.name = n) = [] := by
    rw [List.filter_eq_nil_iff]
    intro p hp
    simp [h p hp]
  rw [hf]
  rfl

/-- With pairwise-distinct names (the documented invariant of the
`projects` table), the duplicate lookup matches exactly the one row that
carries the name. -/
theorem filter_name_eq_single {n : String} :
    ∀ {store : List Project} {p : Project},
      store.Pairwise (fun a b => a.name ≠ b.name) → p ∈ store → p.name = n →
      store.filter (fun q => q.name = n) = [p] := by
  intro store
  induction store with
  | nil => intro p _ hp _; simp at hp
  | cons q rest ih =>
    intro p hd hp hn
    rcases List.mem_cons.mp hp with h | hmem
    · subst h
      have hrest : rest.filter (fun r => r.name = n) = [] := by
        rw [List.filter_eq_nil_iff]
        intro r hr
        have h2 := (List.pairwise_cons.mp hd).1 r hr
        rw [hn] at h2
        simp [Ne.symm h2]
      simp [List.filter_cons, hn, hrest]
    · have hq : ¬(q.name = n) := by
        have h2 := (List.pairwise_cons.mp hd).1 p hmem
        rw [hn] at h2
        exact h2
      have h3 := ih (List.pairwise_cons.mp hd).2 hmem hn
      simp [List.filter_cons, hq, h3]

/-- C7: creating a Project whose name exactly matches the stored project
bearing that name (names are pairwise distinct, the table's documented
invariant) answers Conflict (400) with the duplicate-check query as the
only external call — no upload, no insert; and when no stored project
bears the name, the duplicate check never fires. -/
theorem c7_duplicate_name_check :
    (∀ (env : Env) (store : List Project) (body : ProjectCreateBody)
        (file : Option RawFile) (p : Project),
        store.Pairwise (fun a b => a.name ≠ b.name) → p ∈ store →
        p.name = body.name →
        createProjectM env store body file = (.conflict, [.dbQuery "projects"]) ∧
        projectCreateStatus .conflict = 400) ∧
    (∀ (env : Env) (store : List Project) (body : ProjectCreateBody)
        (file : Option RawFile),
        (∀ p ∈ store, p.name ≠ body.name) →
        (createProjectM env store body file).1 ≠ .conflict) := by
  constructor
  · intro env store body file p hd hp hn
    have hfind : findProjectByName store body.name = some p := by
      unfold findProjectByName
      rw [filter_name_eq_single hd hp hn]
      rfl
    refine ⟨?_, rfl⟩
    unfold createProjectM
    rw [hfind]
  · intro env store body file h
    have hfind : findProjectByName store body.name = none :=
      findProjectByName_eq_none h
    unfold createProjectM
    rw [hfind]
    cases file with
    | none =>
      by_cases hi : env.insertFails <;> simp [hi]
    | some f =>
      by_cases hu : env.uploadFails <;> by_cases hi : env.insertFails <;>
        simp [hu, hi]

/-- C7 witness: a store holding one project named `X`; creating `X` again
conflicts, and creating `Y` does not. -/
theorem c7_duplicate_name_check_witness :
    (createProjectM ⟨"f.png", "https://host/bucket", 9, false, false, false, false⟩
        [⟨1, "X", "0123456789", [], none, none, none⟩]
        ⟨"X", "0123456789", none, none, none⟩ none =
      (.conflict, [.dbQuery "projects"]) ∧
     projectCreateStatus .conflict = 400) ∧
    (createProjectM ⟨"f.png", "https://host/bucket", 9, false, false, false, false⟩
        [⟨1, "X", "0123456789", [], none, none, none⟩]
        ⟨"Y", "0123456789", none, none, none⟩ none).1 ≠ .conflict :=
  ⟨c7_duplicate_name_check.1 _ _ _ none ⟨1, "X", "0123456789", [], none, none, none⟩
     (by decide) (by simp) rfl,
   c7_duplicate_name_check.2 _ _ _ none (by decide)⟩

/-- C4: when persistence fails after a successful upload, both
`createProject` and `updateProject` issue a best-effort delete of exactly
the just-uploaded generated name, answer the persistence failure (500),
and never an upload error (400); `env.storageDeleteFails` is left free,
so the conclusion holds whether or not that compensating delete itself
fails — the controllers never inspect it. -/
theorem c4_compensating_delete :
    (∀ (env : Env) (store : List Project) (body : ProjectCreateBody) (f : RawFile),
        findProjectByName store body.name = none →
        env.uploadFails = false → env.insertFails = true →
        '/' ∉ env.freshName.data → env.freshName ≠ "" →
        createProjectM env store body (some f) =
          (.persistFailed,
           [.dbQuery "projects", .storageUpload env.freshName,
            .dbInsert "projects", .storageDelete env.freshName]) ∧
        projectCreateStatus .persistFailed = 500 ∧
        projectCreateStatus .uploadFailed = 400) ∧
    (∀ (env : Env) (store : List Project) (body : ProjectUpdateBody)
        (f : RawFile) (ex : Project),
        findProjectById store body.id = some ex →
        body.name = none → ex.image_url = none →
        env.uploadFails = false → env.updateFails = true →
        '/' ∉ env.freshName.data → env.freshName ≠ "" →
        updateProjectM env store body (some f) =
          (.persistFailed,
           [.dbQuery "projects", .storageUpload env.freshName,
            .dbUpdate "projects", .storageDelete env.freshName]) ∧
        projectUpdateStatus .persistFailed = 500 ∧
        projectUpdateStatus .uploadFailed = 400) := by
  constructor
  · intro env store body f hfind hu hi hslash hne
    refine ⟨?_, rfl, rfl⟩
    unfold createProjectM
    rw [hfind]
    simp only [hu, hi, Bool.false_eq_true, if_false, if_true,
      cleanupEvents_publicUrl env hslash hne]
    simp
  · intro env store body f ex hfind hname himg hu hup hslash hne
    have hfires : projectNameCheckFires ex body = false := by
      unfold projectNameCheckFires
      rw [hname]
    refine ⟨?_, rfl, rfl⟩
    unfold updateProjectM
    rw [hfind]
    simp only [hfires, hname, himg, hu, hup, Bool.false_eq_true, if_false,
      if_true, cleanupEvents_publicUrl env hslash hne]
    simp

/-- C4 witness: insert and update failures after a successful upload, each
compensated by deleting `new.png`. -/
theorem c4_compensating_delete_witness :
    (createProjectM ⟨"new.png", "https://host/bucket", 7, false, true, false, true⟩
        [] ⟨"X", "0123456789", none, none, none⟩
        (some ⟨"image", "image/png", 4, "a.png"⟩) =
      (.persistFailed,
       [.dbQuery "projects", .storageUpload "new.png",
        .dbInsert "projects", .storageDelete "new.png"]) ∧
     projectCreateStatus .persistFailed = 500 ∧
     projectCreateStatus .uploadFailed = 400) ∧
    (updateProjectM ⟨"new.png", "https://host/bucket", 7, false, false, true, true⟩
        [⟨1, "P", "0123456789", [], none, none, none⟩]
        ⟨1, none, none, none, none, none⟩
        (some ⟨"image", "image/png", 4, "a.png"⟩) =
      (.persistFailed,
       [.dbQuery "projects", .storageUpload "new.png",
        .dbUpdate "projects", .storageDelete "new.png"]) ∧
     projectUpdateStatus .persistFailed = 500 ∧
     projectUpdateStatus .uploadFailed = 400) :=
  ⟨c4_compensating_delete.1 _ [] _ _ (by decide) rfl rfl (by decide) (by decide),
   c4_compensating_delete.2 _ _ _ _ ⟨1, "P", "0123456789", [], none, none, none⟩
     (by decide) rfl rfl rfl rfl (by decide) (by decide)⟩

/-- C2 counterexample: an update whose database write FAILS has still
deleted the old image — and it did so before the `dbUpdate` call — so the
old image is deleted without (and before) any successful persistence
step. -/
theorem c2_counterexample :
    updateProjectM
      ⟨"new.png", "https://host/bucket", 7, false, false, true, false⟩
      [⟨1, "P", "some details here", [], none, none,
        some "https://host/bucket/old.png"⟩]
      ⟨1, none, none, none, none, none⟩
      (some ⟨"image", "image/png", 4, "a.png"⟩) =
      (.persistFailed,
       [.dbQuery "projects", .storageUpload "new.png",
        .storageDelete "old.png", .dbUpdate "projects",
        .storageDelete "new.png"]) := by
  decide

/-- C2 (amended): in a Project update that replaces an existing image, the
OLD image is deleted immediately after the NEW upload succeeds and before
the record update is attempted, and therefore regardless of whether that
update succeeds — not after a successful update. -/
theorem c2_old_image_deleted_before_update :
    ∀ (env : Env) (store : List Project) (body : ProjectUpdateBody)
      (f : RawFile) (ex : Project) (oldUrl : String),
      findProjectById store body.id = some ex →
      body.name = none →
      ex.image_url = some oldUrl →
      extractFilenameFromUrl oldUrl ≠ "" →
      env.uploadFails = false →
      updateProjectM env store body (some f) =
        ((if env.updateFails then .persistFailed
          else .updated (applyProjectUpdate ex body (some (publicUrlFor env)))),
         [.dbQuery "projects", .storageUpload env.freshName,
          .storageDelete (extractFilenameFromUrl oldUrl), .dbUpdate "projects"] ++
         (if env.updateFails then cleanupEvents (publicUrlFor env) else [])) := by
  intro env store body f ex oldUrl hfind hname himg hextract hu
  have hfires : projectNameCheckFires ex body = false := by
    unfold projectNameCheckFires
    rw [hname]
  have hclean : cleanupEvents oldUrl = [.storageDelete (extractFilenameFromUrl oldUrl)] := by
    unfold cleanupEvents
    simp [hextract]
  unfold updateProjectM
  rw [hfind]
  simp only [hfires, himg, hu, Bool.false_eq_true, if_false, if_true, hclean]
  by_cases hup : env.updateFails <;> simp [hup]

/-- C2 witness: the amended ordering at a concrete update that succeeds. -/
theorem c2_old_image_deleted_before_update_witness :
    updateProjectM
      ⟨"new.png", "https://host/bucket", 7, false, false, false, false⟩
      [⟨1, "P", "some details here", [], none, none,
        some "https://host/bucket/old.png"⟩]
      ⟨1, none, none, none, none, none⟩
      (some ⟨"image", "image/png", 4, "a.png"⟩) =
      (.updated (applyProjectUpdate
        ⟨1, "P", "some details here", [], none, none,
          some "https://host/bucket/old.png"⟩
        ⟨1, none, none, none, none, none⟩
        (some (publicUrlFor ⟨"new.png", "https://host/bucket", 7, false, false, false, false⟩))),
       [.dbQuery "projects", .storageUpload "new.png",
        .storageDelete (extractFilenameFromUrl "https://host/bucket/old.png"),
        .dbUpdate "projects"] ++ []) :=
  c2_old_image_deleted_before_update _ _ _ ⟨"image", "image/png", 4, "a.png"⟩
    ⟨1, "P", "some details here", [], none, none, some "https://host/bucket/old.png"⟩
    "https://host/bucket/old.png" (by decide) rfl rfl (by decide) rfl

/-- C8: a single uploaded file whose MIME type is outside the default
allow-list, or whose size exceeds the default 10 MiB ceiling, is rejected
by the upload middleware with 400 before the controller runs: the event
trace is empty, so no blob-store call and no database call of any kind
happened. -/
theorem c8_upload_rejected_before_side_effects :
    ∀ (env : Env) (store : List Project) (body : ProjectCreateBody) (f : RawFile),
      (f.mimetype ∉ defaultAllowedImageTypes ∨ maxFileSizeDefault < f.size) →
      (projectsPostPipeline env store maxFileSizeDefault defaultAllowedImageTypes
          body [f]).2 = [] ∧
      ((projectsPostPipeline env store maxFileSizeDefault defaultAllowedImageTypes
          body [f]).1).isUploadRejected = true ∧
      (∀ e : UploadReject, handleUploadErrorStatus e = 400) := by
  intro env store body f h
  have key : ∀ (P : ProjectsPostResult × List Event → Prop),
      P (.uploadRejected .invalidType, []) → P (.uploadRejected .fileTooLarge, []) →
      P (projectsPostPipeline env store maxFileSizeDefault defaultAllowedImageTypes
          body [f]) := by
    intro P h1 h2
    unfold projectsPostPipeline runUploadMiddleware
    by_cases hacc : fileFilterAccepts defaultAllowedImageTypes f
    · have hsize : maxFileSizeDefault < f.size := by
        rcases h with h1 | h2
        · exact absurd (by simpa [fileFilterAccepts] using hacc) h1
        · exact h2
      simp only [hacc, not_true, if_false, if_pos hsize]
      exact h2
    · simp only [hacc, not_false_iff, if_true]
      exact h1
  refine ⟨?_, ?_, fun e => rfl⟩
  · exact key (fun r => r.2 = []) rfl rfl
  · exact key (fun r => r.1.isUploadRejected = true) rfl rfl

/-- C8 witness: a 1000-byte `application/pdf` upload is rejected with an
empty event trace. -/
theorem c8_upload_rejected_before_side_effects_witness :
    (projectsPostPipeline ⟨"f.png", "https://host/bucket", 1, false, false, false, false⟩
        [] maxFileSizeDefault defaultAllowedImageTypes
        ⟨"X", "0123456789", none, none, none⟩
        [⟨"image", "application/pdf", 1000, "doc.pdf"⟩]).2 = [] ∧
    ((projectsPostPipeline ⟨"f.png", "https://host/bucket", 1, false, false, false, false⟩
        [] maxFileSizeDefault defaultAllowedImageTypes
        ⟨"X", "0123456789", none, none, none⟩
        [⟨"image", "application/pdf", 1000, "doc.pdf"⟩]).1).isUploadRejected = true ∧
    (∀ e : UploadReject, handleUploadErrorStatus e = 400) :=
  c8_upload_rejected_before_side_effects _ _ _
    ⟨"image", "application/pdf", 1000, "doc.pdf"⟩ (Or.inl (by decide))

/-- C3: the create routes are wired WITHOUT any validation middleware
(`src/routes/projects.js` lines 153–157, `src/routes/journey.js` lines
180–182), so a create whose `details` is 5 characters — violating the
min-10 rule that the unused validation arrays in the same files state —
issues the duplicate-check query and the insert (side effects), succeeds
with 201, and yields no ValidationError naming the field. -/
theorem c3_create_routes_skip_validation :
    projectsPostPipeline ⟨"f.png", "https://host/bucket", 1, false, false, false, false⟩
        [] maxFileSizeDefault defaultAllowedImageTypes
        ⟨"X", "short", none, none, none⟩ [] =
      (.controller (.created ⟨1, "X", "short", [], none, none, none⟩),
       [.dbQuery "projects", .dbInsert "projects"]) ∧
    "short".length < 10 ∧
    journeyPostPipeline ⟨"f.png", "https://host/bucket", 1, false, false, false, false⟩
        []
        ⟨"T", "C", 0, none, "short", "Experience"⟩ =
      (.created ⟨1, "T", "C", 0, none, "short", "Experience"⟩,
       [.dbQuery "journey_items", .dbInsert "journey_items"]) := by
  decide

/-- C5 counterexample: updating certification 1 by supplying ONLY a new
title that makes its (title, issuer) pair collide with certification 2
bypasses the duplicate check entirely (the controller requires both
components truthy) and performs the write — no Conflict. -/
theorem c5_counterexample :
    updateCertificationM ⟨"f", "u", 1, false, false, false, false⟩
        [⟨1, "Dev", "Acme", 0, none, none, none⟩,
         ⟨2, "Lead", "Acme", 0, none, none, none⟩]
        ⟨1, some "Lead", none, none, none, none, none⟩ =
      (.updated ⟨1, "Lead", "Acme", 0, none, none, none⟩,
       [.dbQuery "certifications", .dbUpdate "certifications"]) ∧
    ([⟨1, "Dev", "Acme", 0, none, none, none⟩,
      ⟨2, "Lead", "Acme", 0, none, none, none⟩] : List Certification).any
        (fun c => c.title = "Lead" ∧ c.issuer = "Acme" ∧ c.id ≠ 1) = true := by
  decide

/-- C5 (amended): the duplicate check on Certification/Journey update runs
only when BOTH natural-key components are supplied non-empty and the
supplied pair differs from the stored pair; in that case a pair matching
exactly one other row yields Conflict (400) with no write.  Updates
supplying only one component skip the check and may persist a colliding
natural key. -/
theorem c5_conflict_check_needs_both_components :
    (∀ (env : Env) (store : List Certification) (body : CertificationUpdateBody)
        (ex other : Certification) (t u : String),
        findCertificationById store body.id = some ex →
        body.title = some t → body.issuer = some u →
        t ≠ "" → u ≠ "" → (t ≠ ex.title ∨ u ≠ ex.issuer) →
        store.filter (fun c => c.title = t ∧ c.issuer = u ∧ c.id ≠ body.id) = [other] →
        updateCertificationM env store body =
          (.conflict, [.dbQuery "certifications", .dbQuery "certifications"]) ∧
        certificationUpdateStatus .conflict = 400) ∧
    (∀ (env : Env) (store : List JourneyItem) (body : JourneyUpdateBody)
        (ex other : JourneyItem) (t c : String),
        findJourneyById store body.id = some ex →
        body.title = some t → body.company_name = some c →
        t ≠ "" → c ≠ "" → (t ≠ ex.title ∨ c ≠ ex.company_name) →
        store.filter (fun i => i.title = t ∧ i.company_name = c ∧ i.id ≠ body.id) = [other] →
        updateJourneyItemM env store body =
          (.conflict, [.dbQuery "journey_items", .dbQuery "journey_items"]) ∧
        journeyUpdateStatus .conflict = 400) := by
  constructor
  · intro env store body ex other t u hfind ht hu htne hune hdiff hfilter
    have hfires : certDupCheckFires ex body = true := by
      unfold certDupCheckFires
      rw [ht, hu]
      simp only [Bool.and_eq_true, decide_eq_true_eq, ne_eq, Bool.or_eq_true]
      refine ⟨⟨by simpa using htne, by simpa using hune⟩, ?_⟩
      rcases hdiff with h | h
      · exact Or.inl (by simpa using h)
      · exact Or.inr (by simpa using h)
    refine ⟨?_, rfl⟩
    unfold updateCertificationM
    rw [hfind]
    simp only [hfires, ht, hu, if_true, hfilter]
    simp [singleResult]
  · intro env store body ex other t c hfind ht hc htne hcne hdiff hfilter
    have hfires : journeyDupCheckFires ex body = true := by
      unfold journeyDupCheckFires
      rw [ht, hc]
      simp only [Bool.and_eq_true, decide_eq_true_eq, ne_eq, Bool.or_eq_true]
      refine ⟨⟨by simpa using htne, by simpa using hcne⟩, ?_⟩
      rcases hdiff with h | h
      · exact Or.inl (by simpa using h)
      · exact Or.inr (by simpa using h)
    refine ⟨?_, rfl⟩
    unfold updateJourneyItemM
    rw [hfind]
    simp only [hfires, ht, hc, if_true, hfilter]
    simp [singleResult]

/-- C5 witness: supplying both components with a pair colliding with the
other row conflicts, for a certification and for a journey item. -/
theorem c5_conflict_check_needs_both_components_witness :
    (updateCertificationM ⟨"f", "u", 1, false, false, false, false⟩
        [⟨1, "Dev", "Acme", 0, none, none, none⟩,
         ⟨2, "Lead", "Acme", 0, none, none, none⟩]
        ⟨1, some "Lead", some "Acme", none, none, none, none⟩ =
      (.conflict, [.dbQuery "certifications", .dbQuery "certifications"]) ∧
     certificationUpdateStatus .conflict = 400) ∧
    (updateJourneyItemM ⟨"f", "u", 1, false, false, false, false⟩
        [⟨1, "Dev", "Acme", 0, none, "details go here", "Experience"⟩,
         ⟨2, "Lead", "Acme", 0, none, "details go here", "Experience"⟩]
        ⟨1, some "Lead", some "Acme", none, none, none, none⟩ =
      (.conflict, [.dbQuery "journey_items", .dbQuery "journey_items"]) ∧
     journeyUpdateStatus .conflict = 400) :=
  ⟨c5_conflict_check_needs_both_components.1 _ _ _
     ⟨1, "Dev", "Acme", 0, none, none, none⟩
     ⟨2, "Lead", "Acme", 0, none, none, none⟩ "Lead" "Acme"
     (by decide) rfl rfl (by decide) (by decide) (Or.inl (by decide)) (by decide),
   c5_conflict_check_needs_both_components.2 _ _ _
     ⟨1, "Dev", "Acme", 0, none, "details go here", "Experience"⟩
     ⟨2, "Lead", "Acme", 0, none, "details go here", "Experience"⟩ "Lead" "Acme"
     (by decide) rfl rfl (by decide) (by decide) (Or.inl (by decide)) (by decide)⟩

/-- C9: for journey creates (once the duplicate check passes) an
`end_date ≤ start_date` is rejected with 400 before any insert, a strictly
later `end_date` is accepted; for updates the same holds against the
RESOLVED dates (supplied value, else the stored one); and an item without
`end_date` is reported with `is_current = true` by the read view. -/
theorem c9_journey_date_rules :
    (∀ (env : Env) (store : List JourneyItem) (body : JourneyCreateBody) (e : Int),
        findJourneyByKey store body.title body.company_name = none →
        body.end_date = some e → e ≤ body.start_date →
        createJourneyItemM env store body =
          (.invalidDateRange, [.dbQuery "journey_items"]) ∧
        journeyCreateStatus .invalidDateRange = 400) ∧
    (∀ (env : Env) (store : List JourneyItem) (body : JourneyCreateBody) (e : Int),
        findJourneyByKey store body.title body.company_name = none →
        body.end_date = some e → body.start_date < e →
        env.insertFails = false →
        createJourneyItemM env store body =
          (.created { id := env.newId, title := jsTrim body.title,
                      company_name := jsTrim body.company_name,
                      start_date := body.start_date, end_date := body.end_date,
                      details := jsTrim body.details,
                      journey_type := body.journey_type },
           [.dbQuery "journey_items", .dbInsert "journey_items"])) ∧
    (∀ (env : Env) (store : List JourneyItem) (body : JourneyUpdateBody)
        (ex : JourneyItem) (e : Int),
        findJourneyById store body.id = some ex →
        journeyDupCheckFires ex body = false →
        (match body.end_date with | some e2 => e2 | none => ex.end_date) = some e →
        e ≤ (match body.start_date with | some s => s | none => ex.start_date) →
        updateJourneyItemM env store body =
          (.invalidDateRange, [.dbQuery "journey_items"]) ∧
        journeyUpdateStatus .invalidDateRange = 400) ∧
    (∀ (env : Env) (store : List JourneyItem) (body : JourneyUpdateBody)
        (ex : JourneyItem) (e : Int),
        findJourneyById store body.id = some ex →
        journeyDupCheckFires ex body = false →
        (match body.end_date with | some e2 => e2 | none => ex.end_date) = some e →
        (match body.start_date with | some s => s | none => ex.start_date) < e →
        env.updateFails = false →
        updateJourneyItemM env store body =
          (.updated (applyJourneyUpdate ex body),
           [.dbQuery "journey_items", .dbUpdate "journey_items"])) ∧
    (∀ (env : Env) (store : List JourneyItem) (body : JourneyCreateBody),
        findJourneyByKey store body.title body.company_name = none →
        body.end_date = none → env.insertFails = false →
        (createJourneyItemM env store body).1 =
          .created { id := env.newId, title := jsTrim body.title,
                     company_name := jsTrim body.company_name,
                     start_date := body.start_date, end_date := none,
                     details := jsTrim body.details,
                     journey_type := body.journey_type } ∧
        (journeyItemsViewRow
          { id := env.newId, title := jsTrim body.title,
            company_name := jsTrim body.company_name,
            start_date := body.start_date, end_date := none,
            details := jsTrim body.details,
            journey_type := body.journey_type }).is_current = true) := by
  refine ⟨?_, ?_, ?_, ?_, ?_⟩
  · intro env store body e hfind hend hle
    refine ⟨?_, rfl⟩
    unfold createJourneyItemM
    rw [hfind, hend]
    simp [hle]
  · intro env store body e hfind hend hlt hins
    unfold createJourneyItemM
    rw [hfind, hend]
    simp [not_le.mpr hlt, hins]
  · intro env store body ex e hfind hfires hend hle
    refine ⟨?_, rfl⟩
    unfold updateJourneyItemM
    rw [hfind]
    simp only [hfires, Bool.false_eq_true, if_false, hend]
    simp [hle]
  · intro env store body ex e hfind hfires hend hlt hup
    unfold updateJourneyItemM
    rw [hfind]
    simp only [hfires, Bool.false_eq_true, if_false, hend]
    simp [not_le.mpr hlt, hup]
  · intro env store body hfind hend hins
    constructor
    · unfold createJourneyItemM
      rw [hfind, hend]
      simp [hins, hend]
    · simp [journeyItemsViewRow]

/-- C9 witness: the five conjuncts at concrete journey data (dates 5 and 3
rejected, 5 and 9 accepted, for create and update; an item created without
end date is current in the view). -/
theorem c9_journey_date_rules_witness :
    (createJourneyItemM ⟨"f", "u", 3, false, false, false, false⟩ []
        ⟨"T", "C", 5, some 3, "details go here", "Experience"⟩ =
      (.invalidDateRange, [.dbQuery "journey_items"]) ∧
     journeyCreateStatus .invalidDateRange = 400) ∧
    createJourneyItemM ⟨"f", "u", 3, false, false, false, false⟩ []
        ⟨"T", "C", 5, some 9, "details go here", "Experience"⟩ =
      (.created { id := 3, title := jsTrim "T", company_name := jsTrim "C",
                  start_date := 5, end_date := some 9,
                  details := jsTrim "details go here",
                  journey_type := "Experience" },
       [.dbQuery "journey_items", .dbInsert "journey_items"]) ∧
    (updateJourneyItemM ⟨"f", "u", 3, false, false, false, false⟩
        [⟨1, "T", "C", 5, none, "details go here", "Experience"⟩]
        ⟨1, none, none, none, some (some 3), none, none⟩ =
      (.invalidDateRange, [.dbQuery "journey_items"]) ∧
     journeyUpdateStatus .invalidDateRange = 400) ∧
    updateJourneyItemM ⟨"f", "u", 3, false, false, false, false⟩
        [⟨1, "T", "C", 5, none, "details go here", "Experience"⟩]
        ⟨1, none, none, none, some (some 9), none, none⟩ =
      (.updated (applyJourneyUpdate
          ⟨1, "T", "C", 5, none, "details go here", "Experience"⟩
          ⟨1, none, none, none, some (some 9), none, none⟩),
       [.dbQuery "journey_items", .dbUpdate "journey_items"]) ∧
    ((createJourneyItemM ⟨"f", "u", 3, false, false, false, false⟩ []
        ⟨"T", "C", 5, none, "details go here", "Experience"⟩).1 =
      .created { id := 3, title := jsTrim "T", company_name := jsTrim "C",
                 start_date := 5, end_date := none,
                 details := jsTrim "details go here",
                 journey_type := "Experience" } ∧
     (journeyItemsViewRow
        { id := 3, title := jsTrim "T", company_name := jsTrim "C",
          start_date := 5, end_date := none,
          details := jsTrim "details go here",
          journey_type := "Experience" }).is_current = true) :=
  ⟨c9_journey_date_rules.1 _ _ _ 3 (by decide) rfl (by decide),
   c9_journey_date_rules.2.1 _ _ _ 9 (by decide) rfl (by decide) rfl,
   c9_journey_date_rules.2.2.1 _ _ _
     ⟨1, "T", "C", 5, none, "details go here", "Experience"⟩ 3
     (by decide) (by decide) rfl (by decide),
   c9_journey_date_rules.2.2.2.1 _ _ _
     ⟨1, "T", "C", 5, none, "details go here", "Experience"⟩ 9
     (by decide) (by decide) rfl (by decide) rfl,
   c9_journey_date_rules.2.2.2.2 _ _ _ (by decide) rfl rfl⟩
